import Mathlib

/-!
Verification development for the mlpack Adam/AdaMax optimizer
(`src/mlpack/core/optimizers/adam/adam.hpp`) and its stochastic-descent
driver.  Scalars of the C++ code (IEEE doubles) are modelled as real
numbers; dense matrices as functions `Fin rows → Fin cols → ℝ`; the
per-pass random shuffling as an explicit stream of permutations (one per
pass), as the design notes of the specification prescribe.

The repository snapshot ships only `adam.hpp` (the `AdamType` wrapper:
constructor declaration with defaults, `Optimize` forwarding, accessors).
The update policies (`AdamUpdate`, `AdaMaxUpdate`) and the `SGD` driver it
instantiates are declared there but their implementation files are absent,
so those components are modelled from the specification text; each such
definition carries a doc comment saying so.
-/

namespace MlpackAdam

/-- Dense real matrix of the given shape, the model of `arma::mat` for a
fixed shape. -/
def Mat (rows cols : ℕ) : Type := Fin rows → Fin cols → ℝ

/-- Modelled from the spec (the file `adam_update.hpp` is absent from the
snapshot): the Adam update policy object, holding the hyperparameters
`eps`, `beta1`, `beta2` as the accessors of `adam.hpp` require
(`optimizer.UpdatePolicy().Beta1()` etc.). -/
structure AdamUpdate where
  epsilon : ℝ
  beta1 : ℝ
  beta2 : ℝ

/-- Modelled from the spec: the moment state of the Adam policy — first
moment `m`, second moment `v`, and the scalar step counter `t`. -/
structure AdamUpdateState (rows cols : ℕ) where
  m : Mat rows cols
  v : Mat rows cols
  t : ℕ

/-- Modelled from the spec: `Initialize(rows, cols)` allocates `m` and `v`
as zero arrays of the given shape and resets `t = 0`. -/
def AdamUpdate.init (_u : AdamUpdate) (rows cols : ℕ) :
    AdamUpdateState rows cols :=
  { m := fun _ _ => 0, v := fun _ _ => 0, t := 0 }

/-- Modelled from the spec: `Update(iterate, stepSize, gradient)` for Adam.
Increments `t`; `m ← beta1·m + (1−beta1)·g`; `v ← beta2·v + (1−beta2)·g∘g`;
bias-corrected `mHat = m/(1−beta1^t)`, `vHat = v/(1−beta2^t)`;
`iterate ← iterate − stepSize·mHat/(sqrt(vHat)+eps)`, all element-wise.
Returns the new moment state and the new iterate. -/
noncomputable def AdamUpdate.update (u : AdamUpdate) {rows cols : ℕ}
    (s : AdamUpdateState rows cols) (iterate : Mat rows cols)
    (stepSize : ℝ) (gradient : Mat rows cols) :
    AdamUpdateState rows cols × Mat rows cols :=
  let t := s.t + 1
  let m : Mat rows cols :=
    fun i j => u.beta1 * s.m i j + (1 - u.beta1) * gradient i j
  let v : Mat rows cols :=
    fun i j => u.beta2 * s.v i j + (1 - u.beta2) * (gradient i j * gradient i j)
  let biasCorrection1 := 1 - u.beta1 ^ t
  let biasCorrection2 := 1 - u.beta2 ^ t
  ({ m := m, v := v, t := t },
   fun i j => iterate i j -
     stepSize * (m i j / biasCorrection1) /
       (Real.sqrt (v i j / biasCorrection2) + u.epsilon))

/-- Modelled from the spec (the file `adamax_update.hpp` is absent from the
snapshot): the AdaMax update policy object, with the same hyperparameter
surface as `AdamUpdate`. -/
structure AdaMaxUpdate where
  epsilon : ℝ
  beta1 : ℝ
  beta2 : ℝ

/-- Modelled from the spec: the AdaMax moment state — identical `m` and
counter `t`; `v` is the exponentially-weighted infinity norm. -/
structure AdaMaxUpdateState (rows cols : ℕ) where
  m : Mat rows cols
  v : Mat rows cols
  t : ℕ

/-- Modelled from the spec: AdaMax `Initialize(rows, cols)`. -/
def AdaMaxUpdate.init (_u : AdaMaxUpdate) (rows cols : ℕ) :
    AdaMaxUpdateState rows cols :=
  { m := fun _ _ => 0, v := fun _ _ => 0, t := 0 }

/-- Modelled from the spec: `Update` for AdaMax.  Same `t`/`m` recurrence as
Adam; `v ← max(beta2·v, |g|)` element-wise (no squaring, no bias correction
on `v`); `iterate ← iterate − (stepSize/(1−beta1^t))·m/(v+eps)`. -/
noncomputable def AdaMaxUpdate.update (u : AdaMaxUpdate) {rows cols : ℕ}
    (s : AdaMaxUpdateState rows cols) (iterate : Mat rows cols)
    (stepSize : ℝ) (gradient : Mat rows cols) :
    AdaMaxUpdateState rows cols × Mat rows cols :=
  let t := s.t + 1
  let m : Mat rows cols :=
    fun i j => u.beta1 * s.m i j + (1 - u.beta1) * gradient i j
  let v : Mat rows cols :=
    fun i j => max (u.beta2 * s.v i j) |gradient i j|
  let biasCorrection := 1 - u.beta1 ^ t
  ({ m := m, v := v, t := t },
   fun i j => iterate i j -
     (stepSize / biasCorrection) * m i j / (v i j + u.epsilon))

/-- The decomposable objective-function contract consumed by the driver
(documented in `adam.hpp`): `NumFunctions()`, per-term `Evaluate`, per-term
`Gradient` producing an array of the iterate shape. -/
structure DecomposableFunction (rows cols : ℕ) where
  numFunctions : ℕ
  evaluate : Mat rows cols → ℕ → ℝ
  gradient : Mat rows cols → ℕ → Mat rows cols

/-- The compile-time `UpdateRule` template parameter of `SGD`, as a record
of the two operations every policy provides: `Initialize(rows, cols)` and
`Update(iterate, stepSize, gradient)`. -/
structure UpdateRuleClass (U : Type) (σ : ℕ → ℕ → Type) where
  init : U → (rows cols : ℕ) → σ rows cols
  update : U → {rows cols : ℕ} → σ rows cols → Mat rows cols → ℝ →
    Mat rows cols → σ rows cols × Mat rows cols

/-- The Adam policy packaged as an update rule. -/
noncomputable def adamRule : UpdateRuleClass AdamUpdate AdamUpdateState :=
  { init := AdamUpdate.init
    update := fun u => u.update }

/-- The AdaMax policy packaged as an update rule. -/
noncomputable def adaMaxRule : UpdateRuleClass AdaMaxUpdate AdaMaxUpdateState :=
  { init := AdaMaxUpdate.init
    update := fun u => u.update }

/-- Modelled from the spec (the file `sgd.hpp` is absent from the
snapshot; `adam.hpp` only instantiates it): the stochastic gradient
descent driver object with its hyperparameters and its update policy
instance, as the accessors of `adam.hpp` require. -/
structure SGD (U : Type) (σ : ℕ → ℕ → Type) where
  rule : UpdateRuleClass U σ
  updatePolicy : U
  stepSize : ℝ
  maxIterations : ℕ
  tolerance : ℝ
  shuffle : Bool

/-- Modelled from the spec: the term index visited at global step `k`
(steps are numbered from 0).  Pass number is `k / n`, position within the
pass is `k % n`; with `shuffle` on, the position is sent through the
permutation drawn for that pass (a fresh permutation per pass, not per
step); otherwise terms are visited in linear order. -/
def visitIndex (n : ℕ) (shuffle : Bool) (perms : ℕ → Equiv.Perm (Fin n))
    (k : ℕ) : ℕ :=
  if shuffle then
    if h : 0 < n then ((perms (k / n)) ⟨k % n, Nat.mod_lt k h⟩).val else 0
  else k % n

/-- The driver-owned running state: the iterate and the policy moment
state. -/
structure SGDRunState (rows cols : ℕ) (σ : ℕ → ℕ → Type) where
  iterate : Mat rows cols
  policyState : σ rows cols

/-- Modelled from the spec: the infinite trace of the driver loop.
`trace k` is the state after `k` steps; step `k` consumes the next index
of the visitation order, evaluates that single term gradient at the
current iterate and delegates to the update policy. -/
noncomputable def SGD.trace {U : Type} {σ : ℕ → ℕ → Type} {rows cols : ℕ}
    (opt : SGD U σ) (f : DecomposableFunction rows cols)
    (perms : ℕ → Equiv.Perm (Fin f.numFunctions)) (x0 : Mat rows cols) :
    ℕ → SGDRunState rows cols σ
  | 0 => ⟨x0, opt.rule.init opt.updatePolicy rows cols⟩
  | k + 1 =>
    let s := SGD.trace opt f perms x0 k
    let idx := visitIndex f.numFunctions opt.shuffle perms k
    let r := opt.rule.update opt.updatePolicy s.policyState s.iterate
      opt.stepSize (f.gradient s.iterate idx)
    ⟨r.2, r.1⟩

/-- The aggregate objective over the whole term set, averaged over one
full pass, as the spec prescribes for the convergence measurement and the
returned final value. -/
noncomputable def DecomposableFunction.overallObjective {rows cols : ℕ}
    (f : DecomposableFunction rows cols) (x : Mat rows cols) : ℝ :=
  Finset.sum (Finset.range f.numFunctions) (fun i => f.evaluate x i) /
    (f.numFunctions : ℝ)

/-- Modelled from the spec: the tolerance criterion fires at step `k` when
`k` is a pass boundary (a positive multiple of `n`) and the absolute
change of the per-pass-averaged objective since the previous pass boundary
is below `tolerance`. -/
noncomputable def SGD.toleranceFiredAt {U : Type} {σ : ℕ → ℕ → Type}
    {rows cols : ℕ} (opt : SGD U σ) (f : DecomposableFunction rows cols)
    (perms : ℕ → Equiv.Perm (Fin f.numFunctions)) (x0 : Mat rows cols)
    (k : ℕ) : Prop :=
  0 < k ∧ k % f.numFunctions = 0 ∧
    |f.overallObjective ((opt.trace f perms x0 k).iterate) -
      f.overallObjective ((opt.trace f perms x0 (k - f.numFunctions)).iterate)|
      < opt.tolerance

/-- Modelled from the spec: the loop stops at step `k` when the iteration
budget is consumed (`maxIterations` total steps, each one term visited;
`maxIterations = 0` imposes no budget) or the tolerance criterion fires
there. -/
noncomputable def SGD.stopCond {U : Type} {σ : ℕ → ℕ → Type}
    {rows cols : ℕ} (opt : SGD U σ) (f : DecomposableFunction rows cols)
    (perms : ℕ → Equiv.Perm (Fin f.numFunctions)) (x0 : Mat rows cols)
    (k : ℕ) : Prop :=
  (opt.maxIterations ≠ 0 ∧ k = opt.maxIterations) ∨
    opt.toleranceFiredAt f perms x0 k

/-- The loop terminates at step `k` when the stop condition holds there
and at no earlier step. -/
noncomputable def SGD.stopsAt {U : Type} {σ : ℕ → ℕ → Type}
    {rows cols : ℕ} (opt : SGD U σ) (f : DecomposableFunction rows cols)
    (perms : ℕ → Equiv.Perm (Fin f.numFunctions)) (x0 : Mat rows cols)
    (k : ℕ) : Prop :=
  opt.stopCond f perms x0 k ∧ ∀ j < k, ¬ opt.stopCond f perms x0 j

open Classical in
/-- Modelled from the spec: `Optimize(iterate)`.  A function with zero
terms is invalid input and fails fast with a descriptive error before any
update step, leaving the iterate unchanged.  Otherwise the loop runs to
the earliest step satisfying the stop condition and returns the final
iterate together with the aggregate objective there.  (A run with
`maxIterations = 0` whose tolerance criterion never fires never
terminates; the model reports that branch as an error value.) -/
noncomputable def SGD.optimize {U : Type} {σ : ℕ → ℕ → Type}
    {rows cols : ℕ} (opt : SGD U σ) (f : DecomposableFunction rows cols)
    (perms : ℕ → Equiv.Perm (Fin f.numFunctions)) (x0 : Mat rows cols) :
    Mat rows cols × Except String ℝ :=
  if f.numFunctions = 0 then
    (x0, Except.error "SGD::Optimize(): the objective decomposes into zero functions; nothing to optimize")
  else if h : ∃ k, opt.stopCond f perms x0 k then
    (((opt.trace f perms x0 (Nat.find h)).iterate),
      Except.ok (f.overallObjective ((opt.trace f perms x0 (Nat.find h)).iterate)))
  else
    (x0, Except.error "SGD::Optimize(): unbounded run never met the tolerance criterion")

/-- From `adam.hpp`: the `AdamType` wrapper class.  Its only member is the
embedded Stochastic Gradient Descent object instantiated with the chosen
update rule (`SGD<DecomposableFunctionType, UpdateRule> optimizer`). -/
structure AdamType (U : Type) (σ : ℕ → ℕ → Type) where
  optimizer : SGD U σ

/-- The C++ template duck typing of `UpdatePolicy().Beta1()` etc.: any
update rule exposing the three scalar hyperparameters. -/
class MomentParams (U : Type) where
  beta1 : U → ℝ
  beta2 : U → ℝ
  epsilon : U → ℝ

instance : MomentParams AdamUpdate :=
  { beta1 := AdamUpdate.beta1
    beta2 := AdamUpdate.beta2
    epsilon := AdamUpdate.epsilon }

instance : MomentParams AdaMaxUpdate :=
  { beta1 := AdaMaxUpdate.beta1
    beta2 := AdaMaxUpdate.beta2
    epsilon := AdaMaxUpdate.epsilon }

/-- From `adam.hpp` (constructor declaration; the body in `adam_impl.hpp`
is absent and is modelled from the spec): construct the embedded optimizer
from the seven hyperparameters, building the update rule from
`(eps, beta1, beta2)`. -/
def AdamType.new {U : Type} {σ : ℕ → ℕ → Type} (rule : UpdateRuleClass U σ)
    (mkPolicy : ℝ → ℝ → ℝ → U) (stepSize beta1 beta2 eps : ℝ)
    (maxIterations : ℕ) (tolerance : ℝ) (shuffle : Bool) : AdamType U σ :=
  { optimizer :=
    { rule := rule
      updatePolicy := mkPolicy eps beta1 beta2
      stepSize := stepSize
      maxIterations := maxIterations
      tolerance := tolerance
      shuffle := shuffle } }

/-- From `adam.hpp` lines 96–103: construction with every configuration
argument left at its default. -/
def AdamType.newDefault {U : Type} {σ : ℕ → ℕ → Type}
    (rule : UpdateRuleClass U σ) (mkPolicy : ℝ → ℝ → ℝ → U) : AdamType U σ :=
  AdamType.new rule mkPolicy 0.001 0.9 0.999 1e-8 100000 1e-5 true

/-- From `adam.hpp` line 113: `Optimize` forwards to the embedded
optimizer. -/
noncomputable def AdamType.Optimize {U : Type} {σ : ℕ → ℕ → Type}
    {rows cols : ℕ} (a : AdamType U σ) (f : DecomposableFunction rows cols)
    (perms : ℕ → Equiv.Perm (Fin f.numFunctions)) (x0 : Mat rows cols) :
    Mat rows cols × Except String ℝ :=
  a.optimizer.optimize f perms x0

/-- Accessor `StepSize` from `adam.hpp`. -/
def AdamType.StepSize {U : Type} {σ : ℕ → ℕ → Type} (a : AdamType U σ) : ℝ :=
  a.optimizer.stepSize

/-- Accessor `MaxIterations` from `adam.hpp`. -/
def AdamType.MaxIterations {U : Type} {σ : ℕ → ℕ → Type}
    (a : AdamType U σ) : ℕ :=
  a.optimizer.maxIterations

/-- Accessor `Tolerance` from `adam.hpp`. -/
def AdamType.Tolerance {U : Type} {σ : ℕ → ℕ → Type} (a : AdamType U σ) : ℝ :=
  a.optimizer.tolerance

/-- Accessor `Shuffle` from `adam.hpp`. -/
def AdamType.Shuffle {U : Type} {σ : ℕ → ℕ → Type} (a : AdamType U σ) : Bool :=
  a.optimizer.shuffle

/-- The embedded optimizer's update policy, as `optimizer.UpdatePolicy()`. -/
def AdamType.UpdatePolicy {U : Type} {σ : ℕ → ℕ → Type}
    (a : AdamType U σ) : U :=
  a.optimizer.updatePolicy

/-- Accessor `Beta1` from `adam.hpp`: reads the embedded optimizer's update
policy. -/
def AdamType.Beta1 {U : Type} {σ : ℕ → ℕ → Type} [MomentParams U]
    (a : AdamType U σ) : ℝ :=
  MomentParams.beta1 a.UpdatePolicy

/-- Accessor `Beta2` from `adam.hpp`. -/
def AdamType.Beta2 {U : Type} {σ : ℕ → ℕ → Type} [MomentParams U]
    (a : AdamType U σ) : ℝ :=
  MomentParams.beta2 a.UpdatePolicy

/-- Accessor `Epsilon` from `adam.hpp`. -/
def AdamType.Epsilon {U : Type} {σ : ℕ → ℕ → Type} [MomentParams U]
    (a : AdamType U σ) : ℝ :=
  MomentParams.epsilon a.UpdatePolicy

/-- From `adam.hpp` lines 163–164: `Adam` is `AdamType` instantiated with
the `AdamUpdate` rule. -/
def Adam : Type :=
  AdamType AdamUpdate AdamUpdateState

/-- From `adam.hpp` lines 166–167: `AdaMax` is `AdamType` instantiated with
the `AdaMaxUpdate` rule. -/
def AdaMax : Type :=
  AdamType AdaMaxUpdate AdaMaxUpdateState

/-- The one-term scenario objective of the spec: a single term with
gradient `2x` (objective `x²`), on a 1×1 iterate. -/
noncomputable def scenarioFunction : DecomposableFunction 1 1 :=
  { numFunctions := 1
    evaluate := fun x _ => x 0 0 * x 0 0
    gradient := fun x _ => fun i j => 2 * x i j }

/-- The scenario hyperparameters `eps = 1e-8`, `beta1 = 0.9`,
`beta2 = 0.999`. -/
noncomputable def scenarioPolicy : AdamUpdate :=
  { epsilon := 1e-8, beta1 := 0.9, beta2 := 0.999 }

/-- The scenario driver: Adam rule, `stepSize = 0.1`, `maxIterations = 1`,
shuffling off (with one term the order is the same either way). -/
noncomputable def scenarioOptimizer : SGD AdamUpdate AdamUpdateState :=
  { rule := adamRule
    updatePolicy := scenarioPolicy
    stepSize := 0.1
    maxIterations := 1
    tolerance := 1e-5
    shuffle := false }

/-- The scenario starting iterate `x = 1.0`. -/
noncomputable def scenarioStart : Mat 1 1 := fun _ _ => 1

/-- A trivial permutation stream for the scenario (unused as shuffling is
off). -/
def scenarioPerms : ℕ → Equiv.Perm (Fin scenarioFunction.numFunctions) :=
  fun _ => Equiv.refl _

/-- The scenario run: driver state after `k` steps. -/
noncomputable def scenarioRun (k : ℕ) : SGDRunState 1 1 AdamUpdateState :=
  scenarioOptimizer.trace scenarioFunction scenarioPerms scenarioStart k

/-- A degenerate objective with zero decomposable terms, the invalid input
of the error-handling contract. -/
noncomputable def emptyFunction : DecomposableFunction 1 1 :=
  { numFunctions := 0
    evaluate := fun _ _ => 0
    gradient := fun _ _ => fun _ _ => 0 }

/-- A trivial permutation stream over zero terms, for the degenerate
objective. -/
def emptyPerms : ℕ → Equiv.Perm (Fin emptyFunction.numFunctions) :=
  fun _ => Equiv.refl _

lemma sqrt_four : Real.sqrt 4 = 2 := by
  rw [show (4 : ℝ) = 2 ^ 2 by norm_num, Real.sqrt_sq]
  norm_num

/-- C1 counterexample: in the one-term scenario (`Gradient = 2x`,
`stepSize = 0.1`, `beta1 = 0.9`, `beta2 = 0.999`, `eps = 1e-8`, `x₀ = 1`),
after one step the second moment is `v = (1 − 0.999)·2² = 0.004`, not the
`0.000004` the claim states (the claimed `vHat = v/(1−beta2) = 4` is
consistent with `0.004` only). -/
theorem adam_scenario_v_counterexample :
    (scenarioRun 1).policyState.v 0 0 = 0.004 ∧
      ¬ (scenarioRun 1).policyState.v 0 0 = 0.000004 := by
  have h : (scenarioRun 1).policyState.v 0 0 = 0.004 := by
    simp [scenarioRun, SGD.trace, adamRule, AdamUpdate.update, AdamUpdate.init,
      visitIndex, scenarioOptimizer, scenarioFunction, scenarioPolicy,
      scenarioStart]
    norm_num
  refine ⟨h, ?_⟩
  rw [h]
  norm_num

/-- C1 (amended): every Adam `Update` increments `t` and performs exactly
the moment recurrences, bias corrections and iterate step of the spec,
element-wise; and in the one-term scenario, after one step `t = 1`,
`m = 0.2`, `v = 0.004`, `mHat = m/(1−beta1¹) = 2`, `vHat = v/(1−beta2¹) = 4`
and the new iterate equals `1 − 0.1·2/(2 + 1e-8)`. -/
theorem adam_update_step_and_scenario :
    (∀ (rows cols : ℕ) (u : AdamUpdate) (s : AdamUpdateState rows cols)
      (it g : Mat rows cols) (step : ℝ),
      (u.update s it step g).1.t = s.t + 1 ∧
      (∀ i j, (u.update s it step g).1.m i j
        = u.beta1 * s.m i j + (1 - u.beta1) * g i j) ∧
      (∀ i j, (u.update s it step g).1.v i j
        = u.beta2 * s.v i j + (1 - u.beta2) * (g i j * g i j)) ∧
      (∀ i j, (u.update s it step g).2 i j
        = it i j - step * ((u.update s it step g).1.m i j / (1 - u.beta1 ^ (s.t + 1))) /
            (Real.sqrt ((u.update s it step g).1.v i j / (1 - u.beta2 ^ (s.t + 1)))
              + u.epsilon))) ∧
    ((scenarioRun 1).policyState.t = 1 ∧
     (scenarioRun 1).policyState.m 0 0 = 0.2 ∧
     (scenarioRun 1).policyState.v 0 0 = 0.004 ∧
     (scenarioRun 1).policyState.m 0 0 / (1 - scenarioPolicy.beta1 ^ 1) = 2 ∧
     (scenarioRun 1).policyState.v 0 0 / (1 - scenarioPolicy.beta2 ^ 1) = 4 ∧
     (scenarioRun 1).iterate 0 0 = 1 - 0.1 * 2 / (2 + 1e-8)) := by
  constructor
  · intro rows cols u s it g step
    exact ⟨rfl, fun _ _ => rfl, fun _ _ => rfl, fun _ _ => rfl⟩
  · refine ⟨?_, ?_, ?_, ?_, ?_, ?_⟩ <;>
      simp [scenarioRun, SGD.trace, adamRule, AdamUpdate.update, AdamUpdate.init,
        visitIndex, scenarioOptimizer, scenarioFunction, scenarioPolicy,
        scenarioStart] <;>
      norm_num [sqrt_four]

/-- C2: every AdaMax `Update` increments `t`, updates `m` by the same
recurrence as Adam (shown against an Adam policy run on the same inputs),
updates `v := max(beta2·v, |g|)` element-wise with no squaring and no bias
correction on `v`, and steps the iterate by
`iterate − (stepSize/(1−beta1^t))·m/(v + eps)` element-wise. -/
theorem adamax_update_step {rows cols : ℕ} (u : AdaMaxUpdate)
    (s : AdaMaxUpdateState rows cols) (it g : Mat rows cols) (step : ℝ) :
    (u.update s it step g).1.t = s.t + 1 ∧
    (∀ i j, (u.update s it step g).1.m i j
      = u.beta1 * s.m i j + (1 - u.beta1) * g i j) ∧
    (∀ i j, (u.update s it step g).1.v i j
      = max (u.beta2 * s.v i j) |g i j|) ∧
    (∀ i j, (u.update s it step g).2 i j
      = it i j - (step / (1 - u.beta1 ^ (s.t + 1))) * (u.update s it step g).1.m i j /
          ((u.update s it step g).1.v i j + u.epsilon)) ∧
    (∀ (e b2 : ℝ) (w : Mat rows cols),
      ((AdamUpdate.mk e u.beta1 b2).update ⟨s.m, w, s.t⟩ it step g).1.t
        = (u.update s it step g).1.t ∧
      ∀ i j, ((AdamUpdate.mk e u.beta1 b2).update ⟨s.m, w, s.t⟩ it step g).1.m i j
        = (u.update s it step g).1.m i j) :=
  ⟨rfl, fun _ _ => rfl, fun _ _ => rfl, fun _ _ => rfl,
    fun _ _ _ => ⟨rfl, fun _ _ => rfl⟩⟩

/-- C7: under the hyperparameter invariant `beta1, beta2 ∈ [0,1)` and
`eps > 0`, no division of the Adam update divides by zero: after any
`Update` (so at every `t ≥ 1`) both bias-correction denominators are
strictly positive, and the final denominator `sqrt(vHat) + eps` is strictly
positive at every coordinate, even when `vHat` is zero. -/
theorem adam_update_no_division_by_zero {rows cols : ℕ} (u : AdamUpdate)
    (s : AdamUpdateState rows cols) (it g : Mat rows cols) (step : ℝ)
    (hb1 : 0 ≤ u.beta1) (hb1' : u.beta1 < 1)
    (hb2 : 0 ≤ u.beta2) (hb2' : u.beta2 < 1) (he : 0 < u.epsilon) :
    0 < 1 - u.beta1 ^ (u.update s it step g).1.t ∧
    0 < 1 - u.beta2 ^ (u.update s it step g).1.t ∧
    ∀ i j, 0 < Real.sqrt ((u.update s it step g).1.v i j /
      (1 - u.beta2 ^ (u.update s it step g).1.t)) + u.epsilon := by
  have ht : (u.update s it step g).1.t = s.t + 1 := rfl
  refine ⟨?_, ?_, ?_⟩
  · rw [ht]
    exact sub_pos.mpr (pow_lt_one₀ hb1 hb1' (Nat.succ_ne_zero s.t))
  · rw [ht]
    exact sub_pos.mpr (pow_lt_one₀ hb2 hb2' (Nat.succ_ne_zero s.t))
  · intro i j
    exact add_pos_of_nonneg_of_pos (Real.sqrt_nonneg _) he

/-- Witness for C7 at the scenario hyperparameters and a fresh moment
state. -/
theorem adam_update_no_division_by_zero_witness :
    (0 ≤ scenarioPolicy.beta1 ∧ scenarioPolicy.beta1 < 1 ∧
     0 ≤ scenarioPolicy.beta2 ∧ scenarioPolicy.beta2 < 1 ∧
     0 < scenarioPolicy.epsilon) ∧
    (0 < 1 - scenarioPolicy.beta1 ^
        (scenarioPolicy.update (scenarioPolicy.init 1 1) scenarioStart 0.1
          scenarioStart).1.t ∧
     0 < 1 - scenarioPolicy.beta2 ^
        (scenarioPolicy.update (scenarioPolicy.init 1 1) scenarioStart 0.1
          scenarioStart).1.t ∧
     ∀ i j, 0 < Real.sqrt ((scenarioPolicy.update (scenarioPolicy.init 1 1)
          scenarioStart 0.1 scenarioStart).1.v i j /
        (1 - scenarioPolicy.beta2 ^
          (scenarioPolicy.update (scenarioPolicy.init 1 1) scenarioStart 0.1
            scenarioStart).1.t)) + scenarioPolicy.epsilon) :=
  ⟨⟨by norm_num [scenarioPolicy], by norm_num [scenarioPolicy],
    by norm_num [scenarioPolicy], by norm_num [scenarioPolicy],
    by norm_num [scenarioPolicy]⟩,
   adam_update_no_division_by_zero scenarioPolicy (scenarioPolicy.init 1 1)
    scenarioStart scenarioStart 0.1
    (by norm_num [scenarioPolicy]) (by norm_num [scenarioPolicy])
    (by norm_num [scenarioPolicy]) (by norm_num [scenarioPolicy])
    (by norm_num [scenarioPolicy])⟩

/-- C8: immediately after `Initialize(rows, cols)` both moment arrays are
the zero array of exactly the given shape (the state type fixes the shape
to the iterate's) and `t = 0`; after the first `Update` with gradient `g`,
`t = 1` and `m = (1−beta1)·g` exactly — for both policy variants. -/
theorem moment_state_init_and_first_update :
    (∀ (u : AdamUpdate) (rows cols : ℕ),
      (u.init rows cols).m = (fun _ _ => 0) ∧
      (u.init rows cols).v = (fun _ _ => 0) ∧
      (u.init rows cols).t = 0) ∧
    (∀ (u : AdamUpdate) (rows cols : ℕ) (it g : Mat rows cols) (step : ℝ),
      (u.update (u.init rows cols) it step g).1.t = 1 ∧
      ∀ i j, (u.update (u.init rows cols) it step g).1.m i j
        = (1 - u.beta1) * g i j) ∧
    (∀ (u : AdaMaxUpdate) (rows cols : ℕ),
      (u.init rows cols).m = (fun _ _ => 0) ∧
      (u.init rows cols).v = (fun _ _ => 0) ∧
      (u.init rows cols).t = 0) ∧
    (∀ (u : AdaMaxUpdate) (rows cols : ℕ) (it g : Mat rows cols) (step : ℝ),
      (u.update (u.init rows cols) it step g).1.t = 1 ∧
      ∀ i j, (u.update (u.init rows cols) it step g).1.m i j
        = (1 - u.beta1) * g i j) := by
  refine ⟨fun u rows cols => ⟨rfl, rfl, rfl⟩, ?_,
    fun u rows cols => ⟨rfl, rfl, rfl⟩, ?_⟩
  · intro u rows cols it g step
    refine ⟨rfl, fun i j => ?_⟩
    simp [AdamUpdate.update, AdamUpdate.init]
  · intro u rows cols it g step
    refine ⟨rfl, fun i j => ?_⟩
    simp [AdaMaxUpdate.update, AdaMaxUpdate.init]

/-- C3: the driver stops at the earliest step where the stop condition
holds; with a nonzero budget it terminates within `maxIterations` total
steps; a stop is always either the budget being consumed exactly (only
possible when `maxIterations ≠ 0`) or the per-pass-averaged tolerance
criterion firing, so `maxIterations = 0` runs only until tolerance fires;
and every iteration consumes exactly one term (one gradient evaluation),
not one full pass. -/
theorem sgd_termination {U : Type} {σ : ℕ → ℕ → Type} {rows cols : ℕ}
    (opt : SGD U σ) (f : DecomposableFunction rows cols)
    (perms : ℕ → Equiv.Perm (Fin f.numFunctions)) (x0 : Mat rows cols) :
    (opt.maxIterations ≠ 0 →
      ∃ k, k ≤ opt.maxIterations ∧ opt.stopsAt f perms x0 k) ∧
    (∀ k, opt.stopsAt f perms x0 k →
      (opt.maxIterations ≠ 0 ∧ k = opt.maxIterations) ∨
        opt.toleranceFiredAt f perms x0 k) ∧
    (opt.maxIterations = 0 → ∀ k, opt.stopsAt f perms x0 k →
      opt.toleranceFiredAt f perms x0 k) ∧
    (∀ k, opt.trace f perms x0 (k + 1) =
      ⟨(opt.rule.update opt.updatePolicy (opt.trace f perms x0 k).policyState
          (opt.trace f perms x0 k).iterate opt.stepSize
          (f.gradient (opt.trace f perms x0 k).iterate
            (visitIndex f.numFunctions opt.shuffle perms k))).2,
        (opt.rule.update opt.updatePolicy (opt.trace f perms x0 k).policyState
          (opt.trace f perms x0 k).iterate opt.stepSize
          (f.gradient (opt.trace f perms x0 k).iterate
            (visitIndex f.numFunctions opt.shuffle perms k))).1⟩) := by
  classical
  refine ⟨?_, ?_, ?_, fun k => rfl⟩
  · intro hm
    have hex : ∃ k, opt.stopCond f perms x0 k :=
      ⟨opt.maxIterations, Or.inl ⟨hm, rfl⟩⟩
    exact ⟨Nat.find hex, Nat.find_le (Or.inl ⟨hm, rfl⟩),
      Nat.find_spec hex, fun j hj => Nat.find_min hex hj⟩
  · intro k hk
    exact hk.1
  · intro h0 k hk
    rcases hk.1 with h | h
    · exact absurd h0 h.1
    · exact h

/-- Witness for C3 at the one-term scenario configuration, whose budget is
one step. -/
theorem sgd_termination_witness :
    scenarioOptimizer.maxIterations ≠ 0 ∧
    ∃ k, k ≤ scenarioOptimizer.maxIterations ∧
      scenarioOptimizer.stopsAt scenarioFunction scenarioPerms scenarioStart k :=
  ⟨by simp [scenarioOptimizer],
   (sgd_termination scenarioOptimizer scenarioFunction scenarioPerms
      scenarioStart).1 (by simp [scenarioOptimizer])⟩

/-- C4: with shuffling disabled the run does not consult the random
permutation stream at all — two runs from the same fresh state, the same
hyperparameters and the same starting iterate visit the same term order
and produce identical traces and identical `Optimize` results, whatever
permutations the generator would have drawn. -/
theorem sgd_deterministic_without_shuffle {U : Type} {σ : ℕ → ℕ → Type}
    {rows cols : ℕ} (opt : SGD U σ) (f : DecomposableFunction rows cols)
    (perms1 perms2 : ℕ → Equiv.Perm (Fin f.numFunctions))
    (x0 : Mat rows cols) (hsh : opt.shuffle = false) :
    (∀ k, visitIndex f.numFunctions opt.shuffle perms1 k
      = visitIndex f.numFunctions opt.shuffle perms2 k) ∧
    (∀ k, opt.trace f perms1 x0 k = opt.trace f perms2 x0 k) ∧
    opt.optimize f perms1 x0 = opt.optimize f perms2 x0 := by
  have hvi : ∀ k, visitIndex f.numFunctions opt.shuffle perms1 k
      = visitIndex f.numFunctions opt.shuffle perms2 k := by
    intro k
    simp [visitIndex, hsh]
  have htr : ∀ k, opt.trace f perms1 x0 k = opt.trace f perms2 x0 k := by
    intro k
    induction k with
    | zero => rfl
    | succ k ih => simp [SGD.trace, ih, hvi k]
  have htr' : opt.trace f perms1 x0 = opt.trace f perms2 x0 := funext htr
  have hsc : opt.stopCond f perms1 x0 = opt.stopCond f perms2 x0 := by
    funext k
    unfold SGD.stopCond SGD.toleranceFiredAt
    rw [htr']
  refine ⟨hvi, htr, ?_⟩
  unfold SGD.optimize
  rw [htr', hsc]

/-- Witness for C4 at the scenario configuration (shuffling off). -/
theorem sgd_deterministic_without_shuffle_witness :
    scenarioOptimizer.shuffle = false ∧
    scenarioOptimizer.optimize scenarioFunction scenarioPerms scenarioStart
      = scenarioOptimizer.optimize scenarioFunction
          (fun _ => (Equiv.refl (Fin scenarioFunction.numFunctions)).symm)
          scenarioStart :=
  ⟨rfl,
   (sgd_deterministic_without_shuffle scenarioOptimizer scenarioFunction
      scenarioPerms
      (fun _ => (Equiv.refl (Fin scenarioFunction.numFunctions)).symm)
      scenarioStart rfl).2.2⟩

/-- C5: with shuffling on, step `p·n + j` of pass `p` visits the image of
position `j` under the single permutation drawn for pass `p` (fresh per
pass, not per step), so within every pass each term index is visited
exactly once; with shuffling off, terms are visited in linear order
`k % n`. -/
theorem sgd_visitation_order (n : ℕ) (hn : 0 < n)
    (perms : ℕ → Equiv.Perm (Fin n)) :
    (∀ (p : ℕ) (j : Fin n),
      visitIndex n true perms (p * n + j.val) = ((perms p) j).val) ∧
    (∀ (p : ℕ) (i : Fin n), ∃! j : Fin n,
      visitIndex n true perms (p * n + j.val) = i.val) ∧
    (∀ k, visitIndex n false perms k = k % n) := by
  have hmain : ∀ (p : ℕ) (j : Fin n),
      visitIndex n true perms (p * n + j.val) = ((perms p) j).val := by
    intro p j
    have h1 : (p * n + j.val) / n = p := by
      rw [add_comm, Nat.add_mul_div_right _ _ hn, Nat.div_eq_of_lt j.isLt,
        zero_add]
    have h2 : (p * n + j.val) % n = j.val := by
      rw [add_comm, Nat.add_mul_mod_self_right, Nat.mod_eq_of_lt j.isLt]
    simp only [visitIndex, if_true, dif_pos hn, h1]
    exact congrArg Fin.val (congrArg (perms p) (Fin.ext h2))
  refine ⟨hmain, ?_, fun k => by simp [visitIndex]⟩
  intro p i
  refine ⟨(perms p).symm i, ?_, ?_⟩
  · show visitIndex n true perms (p * n + ((perms p).symm i).val) = i.val
    rw [hmain p ((perms p).symm i), Equiv.apply_symm_apply]
  · intro y hy
    have hy' : ((perms p) y).val = i.val := by
      rw [← hmain p y]
      exact hy
    have : (perms p) y = i := Fin.ext hy'
    rw [← this, Equiv.symm_apply_apply]

/-- Witness for C5 with two terms and the identity permutation stream. -/
theorem sgd_visitation_order_witness :
    0 < 2 ∧
    ((∀ (p : ℕ) (j : Fin 2),
       visitIndex 2 true (fun _ => Equiv.refl (Fin 2)) (p * 2 + j.val)
         = ((Equiv.refl (Fin 2)) j).val) ∧
     (∀ k, visitIndex 2 false (fun _ => Equiv.refl (Fin 2)) k = k % 2)) :=
  ⟨by norm_num,
   (sgd_visitation_order 2 (by norm_num) (fun _ => Equiv.refl (Fin 2))).1,
   (sgd_visitation_order 2 (by norm_num) (fun _ => Equiv.refl (Fin 2))).2.2⟩

/-- C6: with zero decomposable terms `Optimize` fails fast, returning the
descriptive error before any update step and leaving the iterate
unchanged. -/
theorem sgd_optimize_zero_functions_fails_fast {U : Type}
    {σ : ℕ → ℕ → Type} {rows cols : ℕ} (opt : SGD U σ)
    (f : DecomposableFunction rows cols)
    (perms : ℕ → Equiv.Perm (Fin f.numFunctions)) (x0 : Mat rows cols)
    (h : f.numFunctions = 0) :
    opt.optimize f perms x0 = (x0, Except.error
      "SGD::Optimize(): the objective decomposes into zero functions; nothing to optimize") := by
  unfold SGD.optimize
  rw [if_pos h]

/-- Witness for C6 at the degenerate zero-term objective. -/
theorem sgd_optimize_zero_functions_fails_fast_witness :
    emptyFunction.numFunctions = 0 ∧
    scenarioOptimizer.optimize emptyFunction emptyPerms scenarioStart
      = (scenarioStart, Except.error
        "SGD::Optimize(): the objective decomposes into zero functions; nothing to optimize") :=
  ⟨rfl,
   sgd_optimize_zero_functions_fails_fast scenarioOptimizer emptyFunction
     emptyPerms scenarioStart rfl⟩

/-- C9: constructed without explicit configuration arguments (for both the
Adam and the AdaMax instantiation), the hyperparameters read back through
the accessors are exactly `stepSize = 0.001`, `beta1 = 0.9`,
`beta2 = 0.999`, `eps = 1e-8`, `maxIterations = 100000`,
`tolerance = 1e-5`, `shuffle = true`. -/
theorem adam_default_hyperparameters :
    ((AdamType.newDefault adamRule AdamUpdate.mk).StepSize = 0.001 ∧
     (AdamType.newDefault adamRule AdamUpdate.mk).Beta1 = 0.9 ∧
     (AdamType.newDefault adamRule AdamUpdate.mk).Beta2 = 0.999 ∧
     (AdamType.newDefault adamRule AdamUpdate.mk).Epsilon = 1e-8 ∧
     (AdamType.newDefault adamRule AdamUpdate.mk).MaxIterations = 100000 ∧
     (AdamType.newDefault adamRule AdamUpdate.mk).Tolerance = 1e-5 ∧
     (AdamType.newDefault adamRule AdamUpdate.mk).Shuffle = true) ∧
    ((AdamType.newDefault adaMaxRule AdaMaxUpdate.mk).StepSize = 0.001 ∧
     (AdamType.newDefault adaMaxRule AdaMaxUpdate.mk).Beta1 = 0.9 ∧
     (AdamType.newDefault adaMaxRule AdaMaxUpdate.mk).Beta2 = 0.999 ∧
     (AdamType.newDefault adaMaxRule AdaMaxUpdate.mk).Epsilon = 1e-8 ∧
     (AdamType.newDefault adaMaxRule AdaMaxUpdate.mk).MaxIterations = 100000 ∧
     (AdamType.newDefault adaMaxRule AdaMaxUpdate.mk).Tolerance = 1e-5 ∧
     (AdamType.newDefault adaMaxRule AdaMaxUpdate.mk).Shuffle = true) :=
  ⟨⟨rfl, rfl, rfl, rfl, rfl, rfl, rfl⟩, ⟨rfl, rfl, rfl, rfl, rfl, rfl, rfl⟩⟩

/-- C10: `AdamType` holds no optimization state of its own — its sole
member is the embedded `SGD` optimizer (so equal embedded optimizers give
equal wrappers), `Optimize` returns exactly the embedded optimizer's
result, every hyperparameter accessor reads the embedded optimizer's (or
its update policy's) state, and the `Adam` and `AdaMax` instantiations are
the same class differing only in the update-rule argument. -/
theorem adamtype_is_stateless_sgd_wrapper :
    (∀ (U : Type) (σ : ℕ → ℕ → Type) (rows cols : ℕ) (a : AdamType U σ)
      (f : DecomposableFunction rows cols)
      (perms : ℕ → Equiv.Perm (Fin f.numFunctions)) (x0 : Mat rows cols),
      a.Optimize f perms x0 = a.optimizer.optimize f perms x0) ∧
    (∀ (U : Type) (σ : ℕ → ℕ → Type) (a b : AdamType U σ),
      a.optimizer = b.optimizer → a = b) ∧
    (∀ (U : Type) (σ : ℕ → ℕ → Type) [MomentParams U] (a : AdamType U σ),
      a.StepSize = a.optimizer.stepSize ∧
      a.Beta1 = MomentParams.beta1 a.optimizer.updatePolicy ∧
      a.Beta2 = MomentParams.beta2 a.optimizer.updatePolicy ∧
      a.Epsilon = MomentParams.epsilon a.optimizer.updatePolicy ∧
      a.MaxIterations = a.optimizer.maxIterations ∧
      a.Tolerance = a.optimizer.tolerance ∧
      a.Shuffle = a.optimizer.shuffle) ∧
    Adam = AdamType AdamUpdate AdamUpdateState ∧
    AdaMax = AdamType AdaMaxUpdate AdaMaxUpdateState := by
  refine ⟨fun U σ rows cols a f perms x0 => rfl, ?_,
    fun U σ _ a => ⟨rfl, rfl, rfl, rfl, rfl, rfl, rfl⟩, rfl, rfl⟩
  intro U σ a b h
  cases a
  cases b
  exact congrArg AdamType.mk h

/-- Witness for C10: the single-field extensionality applied at the
scenario optimizer. -/
theorem adamtype_is_stateless_sgd_wrapper_witness :
    (AdamType.mk scenarioOptimizer).optimizer
      = (AdamType.mk scenarioOptimizer).optimizer ∧
    AdamType.mk scenarioOptimizer = AdamType.mk scenarioOptimizer :=
  ⟨rfl, (adamtype_is_stateless_sgd_wrapper).2.1 AdamUpdate AdamUpdateState
    (AdamType.mk scenarioOptimizer) (AdamType.mk scenarioOptimizer) rfl⟩

end MlpackAdam
